import Mathlib

/-!
Verification of `radial_interp` (src/radial_interp.py).

The Python function samples a gridded geographic field along a radial
"spider web" of points: for each distance `km` in `radius_steps` and each
bearing `deg` in `degree_steps` it computes the great-circle destination
from a center point, then looks every destination up in the grid with
`scipy.interpolate.interpn`.

Shallow embedding choices:
* numpy 1-D arrays / Python lists of floats become `List ℚ` (nothing the
  claims probe depends on floating-point rounding; all claim-relevant
  behaviour is control flow, list construction and argument plumbing);
* the input array `a` is abstract (a type parameter `α`): the code only
  passes it to `interpn` and reads `a.ndim`;
* the external collaborators (geopy geodesic destination, the pointwise
  kernel of `scipy.interpolate.interpn`, the fill value that `np.empty`
  happens to produce) are fields of an environment `Env`, since they are
  library code, not code of this repository;
* a `center_lat` / `center_lon` argument is a `List ℚ`; a Python scalar or
  a size-1 array corresponds to a one-element list (`np.size` = length);
* `assert` failures and numpy/Python exceptions become `Except PyErr`.
-/

/-- Exceptions the embedded code can raise: `assert` failure, a bad index
(`radius_steps[0]` on an empty list, or numpy fancy indexing with a
non-integer / out-of-range subscript), and a numpy broadcast mismatch. -/
inductive PyErr where
  | assertionError : PyErr
  | indexError : PyErr
  | valueError : PyErr
deriving DecidableEq, Repr

/-- Possible normal return values of `radial_interp`: a bare vector of
interpolated values, a `(vals, lats, lons)` triple when
`return_coordinates` is true, the 3-D `array_out` of the multiple-center
branch, or Python's implicit `None` (falling off the end of the function
body). -/
inductive RIRet where
  | vals (v : List ℚ) : RIRet
  | withCoords (v lats lons : List ℚ) : RIRet
  | arr (o : List (List (List ℚ))) : RIRet
  | pynone : RIRet
deriving DecidableEq, Repr

/-- Environment of external library collaborators.
`ndim` reads `a.ndim`; `dest lat lon km deg` models
`geopy.distance.distance(kilometers=km).destination(point=Point(lat,lon),
bearing=deg)` returning `(dest.latitude, dest.longitude)`; `interp1` is the
pointwise kernel of `scipy.interpolate.interpn` (its value at one query
point `(lon, lat)` for the grid `(a_lons, a_lats)` and array `a`; `interpn`
on a vector of query points is pointwise); `empty` is the unspecified fill
value found in an array freshly allocated by `np.empty`. -/
structure Env (α : Type) where
  ndim : α → Nat
  dest : ℚ → ℚ → ℚ → ℚ → ℚ × ℚ
  interp1 : List ℚ × List ℚ → α → ℚ × ℚ → ℚ
  empty : ℚ

/-- One iteration of the innermost loop body (lines 61-65 / 70-74 /
107-112 / 117-122 of the source): compute the geodesic destination of
`(lat, lon)` at distance `km` and bearing `deg` and append its latitude
and longitude to the two accumulator lists `interp_lat`, `interp_lon`. -/
def destStep (E : Env α) (lat lon km deg : ℚ) (acc : List ℚ × List ℚ) :
    List ℚ × List ℚ :=
  let d := E.dest lat lon km deg
  (acc.1 ++ [d.1], acc.2 ++ [d.2])

/-- The inner `for deg in degree_steps` loop at a fixed radius `km`. -/
def destInner (E : Env α) (lat lon km : ℚ) (ds : List ℚ)
    (acc : List ℚ × List ℚ) : List ℚ × List ℚ :=
  ds.foldl (fun acc2 deg => destStep E lat lon km deg acc2) acc

/-- The outer `for km in radius_steps` loop: builds the pair
`(interp_lat, interp_lon)` of destination coordinates, starting from two
empty lists.  The source repeats this loop verbatim in both arms of the
`if radius_steps[0] == 0` test (and again in the multiple-center branch);
the loops are identical, only the `np.hstack` prepend after them differs. -/
def destLoop (E : Env α) (lat lon : ℚ) (rs ds : List ℚ) :
    List ℚ × List ℚ :=
  rs.foldl (fun acc km => destInner E lat lon km ds acc) ([], [])

/-- `scipy.interpolate.interpn((a_lons, a_lats), a, (interp_lon,
interp_lat))`: evaluated pointwise on the paired query coordinates,
returning one value per query point. -/
def interpn (E : Env α) (grid : List ℚ × List ℚ) (a : α)
    (q : List ℚ × List ℚ) : List ℚ :=
  (q.1.zip q.2).map (fun p => E.interp1 grid a p)

/-- Single-center branch, lines 54-87: generate destination coordinates,
prepend the origin when `radius_steps[0]` is nonzero (`np.hstack` of a
scalar and a list), interpolate, and return with or without coordinates. -/
def singleCenter (E : Env α) (a : α) (a_lats a_lons : List ℚ)
    (clat clon : ℚ) (rs ds : List ℚ) (retc : Bool) : RIRet :=
  let gen := destLoop E clat clon rs ds
  let ilat := if rs.headD 0 = 0 then gen.1 else clat :: gen.1
  let ilon := if rs.headD 0 = 0 then gen.2 else clon :: gen.2
  let v := interpn E (a_lons, a_lats) a (ilon, ilat)
  if retc then RIRet.withCoords v ilat ilon else RIRet.vals v

/-- Numpy integer conversion of one subscript in
`array_out[lon, lat, :]`: a float with a fractional part raises
`IndexError` (numpy fancy indexing takes integers only), an integer is
accepted if it lies in `[-n, n)`, negative values counting from the end. -/
def npIndex (q : ℚ) (n : Nat) : Except PyErr Nat :=
  if q.den ≠ 1 then Except.error PyErr.indexError
  else if q.num < 0 then
    if -q.num ≤ (n : ℤ) then Except.ok (q.num + n).toNat
    else Except.error PyErr.indexError
  else if q.num < (n : ℤ) then Except.ok q.num.toNat
  else Except.error PyErr.indexError

/-- A fresh `np.empty([n, m, k])` array, every cell holding the
unspecified fill value `x`. -/
def mk3 (n m k : Nat) (x : ℚ) : List (List (List ℚ)) :=
  List.replicate n (List.replicate m (List.replicate k x))

/-- Write a length-`k` row at position `[i][j]` of a 3-D array. -/
def setSlot (o : List (List (List ℚ))) (i j : Nat) (v : List ℚ) :
    List (List (List ℚ)) :=
  o.set i ((o.getD i []).set j v)

/-- The assignment `array_out[lon, lat, :] = interp_vals` (line 130):
convert the two float subscripts, then broadcast the right-hand side into
the length-`rd` slot (a length-1 array broadcasts, any other length
mismatch raises `ValueError`). -/
def npSetIdx (o : List (List (List ℚ))) (n m rd : Nat) (lonq latq : ℚ)
    (v : List ℚ) : Except PyErr RIRet :=
  match npIndex lonq n with
  | Except.error e => Except.error e
  | Except.ok i =>
    match npIndex latq m with
    | Except.error e => Except.error e
    | Except.ok j =>
      if v.length = rd then Except.ok (RIRet.arr (setSlot o i j v))
      else if v.length = 1 then
        Except.ok (RIRet.arr (setSlot o i j (List.replicate rd (v.headD 0))))
      else Except.error PyErr.valueError

/-- Multiple-center branch, lines 89-132.  After its two asserts it
allocates `array_out` with `np.empty`, then iterates
`for lon in center_lon: for lat in center_lat:`.  The source's `return
array_out` sits INSIDE the innermost loop, so only the first `(lon, lat)`
pair is ever processed; if either center list is empty the loops run zero
body iterations and the function falls through, returning `None`.  Note
also that the `np.hstack` on lines 124-125 prepends the whole `center_lat`
/ `center_lon` arrays, not the current `lat` / `lon`. -/
def multiCenter (E : Env α) (a : α) (a_lats a_lons : List ℚ)
    (clat clon : List ℚ) (rs ds : List ℚ) (retc : Bool) :
    Except PyErr RIRet :=
  if E.ndim a = 2 then
    if retc = false then
      let rd := rs.length * ds.length
      let array_out := mk3 clon.length clat.length rd E.empty
      match clon, clat with
      | [], _ => Except.ok RIRet.pynone
      | _ :: _, [] => Except.ok RIRet.pynone
      | lon :: _, lat :: _ =>
        let gen := destLoop E lat lon rs ds
        let ilat := if rs.headD 0 = 0 then gen.1 else clat ++ gen.1
        let ilon := if rs.headD 0 = 0 then gen.2 else clon ++ gen.2
        let v := interpn E (a_lons, a_lats) a (ilon, ilat)
        npSetIdx array_out clon.length clat.length rd lon lat v
    else Except.error PyErr.assertionError
  else Except.error PyErr.assertionError

/-- The whole of `radial_interp` (lines 51-132): the two top-level asserts
(2-or-3-dimensional input, non-negative starting radius — reading
`radius_steps[0]` on an empty list raises `IndexError` first), then the
branch on `np.size(center_lat) == 1 and np.size(center_lon) == 1`. -/
def radial_interp (E : Env α) (a : α) (a_lats a_lons : List ℚ)
    (center_lat center_lon : List ℚ) (radius_steps degree_steps : List ℚ)
    (return_coordinates : Bool) : Except PyErr RIRet :=
  if 2 ≤ E.ndim a ∧ E.ndim a ≤ 3 then
    match radius_steps with
    | [] => Except.error PyErr.indexError
    | r0 :: rest =>
      if 0 ≤ r0 then
        if center_lat.length = 1 ∧ center_lon.length = 1 then
          Except.ok (singleCenter E a a_lats a_lons (center_lat.headD 0)
            (center_lon.headD 0) (r0 :: rest) degree_steps
            return_coordinates)
        else
          multiCenter E a a_lats a_lons center_lat center_lon
            (r0 :: rest) degree_steps return_coordinates
      else Except.error PyErr.assertionError
  else Except.error PyErr.assertionError

/-- Spec-side list of destination latitudes: the outer loop over
`radius_steps` in order, the inner loop over `degree_steps` in order,
each point the geodesic destination at that distance and bearing. -/
def spiderLats (E : Env α) (lat lon : ℚ) : List ℚ → List ℚ → List ℚ
  | [], _ => []
  | km :: rs, ds =>
      ds.map (fun deg => (E.dest lat lon km deg).1) ++ spiderLats E lat lon rs ds

/-- Spec-side list of destination longitudes, same traversal order. -/
def spiderLons (E : Env α) (lat lon : ℚ) : List ℚ → List ℚ → List ℚ
  | [], _ => []
  | km :: rs, ds =>
      ds.map (fun deg => (E.dest lat lon km deg).2) ++ spiderLons E lat lon rs ds

/-- The single-center branch's final latitude samples: the spider-web
points, with the origin prepended when the starting radius is nonzero. -/
def sampleLats (E : Env α) (clat clon : ℚ) (rs ds : List ℚ) : List ℚ :=
  if rs.headD 0 = 0 then spiderLats E clat clon rs ds
  else clat :: spiderLats E clat clon rs ds

/-- The single-center branch's final longitude samples. -/
def sampleLons (E : Env α) (clat clon : ℚ) (rs ds : List ℚ) : List ℚ :=
  if rs.headD 0 = 0 then spiderLons E clat clon rs ds
  else clon :: spiderLons E clat clon rs ds

/-- Caller-visible store for the frame claim: the five array arguments a
caller shares with `radial_interp`.  The numpy arrays are mutable, so the
embedding threads them through the call explicitly; the source never
assigns into any of them (its only writes target the locals `interp_lat`,
`interp_lon`, `array_out`), so the store passes through unchanged. -/
structure Store (α : Type) where
  a : α
  a_lats : List ℚ
  a_lons : List ℚ
  radius_steps : List ℚ
  degree_steps : List ℚ
deriving DecidableEq

/-- `radial_interp` with the shared arrays threaded as a store. -/
def radial_interpSt (E : Env α) (σ : Store α) (center_lat center_lon : List ℚ)
    (return_coordinates : Bool) : Except PyErr (RIRet × Store α) :=
  match radial_interp E σ.a σ.a_lats σ.a_lons center_lat center_lon
      σ.radius_steps σ.degree_steps return_coordinates with
  | Except.error e => Except.error e
  | Except.ok r => Except.ok (r, σ)

/-- A concrete environment over `α := Nat`, used to evaluate the model on
concrete inputs: the "array" is just its own dimension count, the
destination is a flat chart satisfying the geodesic identity at distance
zero, the interpolation kernel is constant 7, and `np.empty` cells read 5. -/
def natEnv : Env Nat where
  ndim := fun a => a
  dest := fun lat lon km deg => (lat + km, lon + deg * km)
  interp1 := fun _ _ _ => 7
  empty := 5

/-- Shape classifier: the call returned a `(vals, lats, lons)` triple. -/
def isTriple : Except PyErr RIRet → Bool
  | Except.ok (RIRet.withCoords _ _ _) => true
  | _ => false

/-- Shape classifier: the call returned a bare vector of values. -/
def isValsOnly : Except PyErr RIRet → Bool
  | Except.ok (RIRet.vals _) => true
  | _ => false

/-! ### Loop characterization lemmas -/

theorem destInner_spec (E : Env α) (lat lon km : ℚ) (ds : List ℚ)
    (acc : List ℚ × List ℚ) :
    destInner E lat lon km ds acc =
      (acc.1 ++ ds.map (fun deg => (E.dest lat lon km deg).1),
       acc.2 ++ ds.map (fun deg => (E.dest lat lon km deg).2)) := by
  induction ds generalizing acc with
  | nil => simp [destInner]
  | cons d ds ih =>
      simp only [destInner, List.foldl_cons] at *
      rw [ih]
      simp [destStep, List.append_assoc]

theorem destLoop_foldl (E : Env α) (lat lon : ℚ) (rs ds : List ℚ)
    (acc : List ℚ × List ℚ) :
    rs.foldl (fun acc2 km => destInner E lat lon km ds acc2) acc =
      (acc.1 ++ spiderLats E lat lon rs ds,
       acc.2 ++ spiderLons E lat lon rs ds) := by
  induction rs generalizing acc with
  | nil => simp [spiderLats, spiderLons]
  | cons km rs ih =>
      simp only [List.foldl_cons]
      rw [destInner_spec, ih]
      simp [spiderLats, spiderLons, List.append_assoc]

theorem destLoop_spec (E : Env α) (lat lon : ℚ) (rs ds : List ℚ) :
    destLoop E lat lon rs ds =
      (spiderLats E lat lon rs ds, spiderLons E lat lon rs ds) := by
  simp [destLoop, destLoop_foldl]

theorem spiderLats_length (E : Env α) (lat lon : ℚ) (rs ds : List ℚ) :
    (spiderLats E lat lon rs ds).length = rs.length * ds.length := by
  induction rs with
  | nil => simp [spiderLats]
  | cons km rs ih => simp [spiderLats, ih, Nat.succ_mul, Nat.add_comm]

theorem spiderLons_length (E : Env α) (lat lon : ℚ) (rs ds : List ℚ) :
    (spiderLons E lat lon rs ds).length = rs.length * ds.length := by
  induction rs with
  | nil => simp [spiderLons]
  | cons km rs ih => simp [spiderLons, ih, Nat.succ_mul, Nat.add_comm]

/-- Reduction of the whole function on a single-center call: both arms of
the `if radius_steps[0] == 0` test collapse to the `sampleLats` /
`sampleLons` coordinate lists followed by the `interpn` lookup. -/
theorem single_center_eval (E : Env α) (a : α) (a_lats a_lons : List ℚ)
    (clat clon r0 : ℚ) (rest ds : List ℚ) (retc : Bool)
    (hdim : 2 ≤ E.ndim a ∧ E.ndim a ≤ 3) (hr : 0 ≤ r0) :
    radial_interp E a a_lats a_lons [clat] [clon] (r0 :: rest) ds retc =
      Except.ok (if retc then
        RIRet.withCoords
          (interpn E (a_lons, a_lats) a
            (sampleLons E clat clon (r0 :: rest) ds,
             sampleLats E clat clon (r0 :: rest) ds))
          (sampleLats E clat clon (r0 :: rest) ds)
          (sampleLons E clat clon (r0 :: rest) ds)
      else
        RIRet.vals (interpn E (a_lons, a_lats) a
          (sampleLons E clat clon (r0 :: rest) ds,
           sampleLats E clat clon (r0 :: rest) ds))) := by
  simp [radial_interp, hdim, hr, singleCenter, destLoop_spec, sampleLats,
    sampleLons]

/-! ### Which errors the numpy assignment can raise -/

theorem npIndex_error_eq (q : ℚ) (n : Nat) (e : PyErr)
    (h : npIndex q n = Except.error e) : e = PyErr.indexError := by
  unfold npIndex at h
  split_ifs at h <;> simp_all

theorem npSetIdx_ne_assert (o : List (List (List ℚ))) (n m rd : Nat)
    (lonq latq : ℚ) (v : List ℚ) :
    npSetIdx o n m rd lonq latq v ≠ Except.error PyErr.assertionError := by
  unfold npSetIdx
  cases h1 : npIndex lonq n with
  | error e =>
      have he := npIndex_error_eq _ _ _ h1
      simp [he]
  | ok i =>
      cases h2 : npIndex latq m with
      | error e =>
          have he := npIndex_error_eq _ _ _ h2
          simp [he]
      | ok j => split_ifs <;> simp

theorem multiCenter_assert_iff (E : Env α) (a : α) (a_lats a_lons : List ℚ)
    (clat clon rs ds : List ℚ) (retc : Bool) :
    multiCenter E a a_lats a_lons clat clon rs ds retc
        = Except.error PyErr.assertionError
      ↔ (E.ndim a ≠ 2 ∨ retc = true) := by
  by_cases h2 : E.ndim a = 2
  · by_cases hb : retc = true
    · simp [multiCenter, h2, hb]
    · have hb2 : retc = false := by
        cases retc
        · rfl
        · exact absurd rfl hb
      subst hb2
      simp only [multiCenter, h2, if_pos rfl, if_pos]
      constructor
      · intro h
        cases clon with
        | nil => simp at h
        | cons lon lont =>
            cases clat with
            | nil => simp at h
            | cons lat latt =>
                exact absurd h (npSetIdx_ne_assert _ _ _ _ _ _ _)
      · intro h
        rcases h with h | h
        · exact absurd rfl h
        · exact absurd h (by simp)
  · simp [multiCenter, h2]

/-! ### Claim theorems -/

/-- C1 (code bug witness): in the multiple-center branch the source's
`return array_out` (line 132) sits inside the innermost loop, so the
function returns after interpolating around the FIRST `(center_lon,
center_lat)` pair only.  Concretely: a 2-D grid (`natEnv.ndim 2 = 2`),
two center latitudes `[0, 1]` and one center longitude `[0]`,
`radius_steps = [0]`, `degree_steps = [0]`.  The interpolation kernel of
`natEnv` is constant `7` and its `np.empty` fill value is `5`: the returned
`array_out` holds the interpolated `7` only in the slot of the first pair,
while the second pair's slot still holds the uninitialized `5` — the radial
pattern was never sampled around the second center. -/
theorem C1_early_return_first_pair_only :
    radial_interp natEnv 2 [0, 1, 2] [0, 1, 2] [0, 1] [0] [0] [0] false
      = Except.ok (RIRet.arr [[[7], [5]]]) := by
  rfl

/-- C2 counterexample: the claim says an `AssertionError` is raised if and
only if the array is not 2-D/3-D or the starting radius is negative.  At a
3-D input with multiple centers both claimed preconditions hold (the
dimension is within 2..3 and the starting radius is 0), yet the call
raises `AssertionError` — from the third assert (line 92), which the claim
says does not exist. -/
theorem C2_counterexample :
    radial_interp natEnv 3 [0, 1] [0, 1] [0, 0] [0] [0] [0] false
        = Except.error PyErr.assertionError
      ∧ (2 ≤ natEnv.ndim 3 ∧ natEnv.ndim 3 ≤ 3) ∧ (0 : ℚ) ≤ 0 := by
  refine ⟨by rfl, by decide, by norm_num⟩

/-- C2 (amended): a call with a nonempty `radius_steps` raises
`AssertionError` if and only if the input array is not 2- or 3-dimensional,
or the starting radius is negative, or the multiple-center branch is taken
and its own two asserts reject the call (a non-2-D array, or
`return_coordinates` requested).  There are four assert statements in the
source, not two. -/
theorem C2_assert_characterization (E : Env α) (a : α)
    (a_lats a_lons clat clon : List ℚ) (r0 : ℚ) (rest ds : List ℚ)
    (retc : Bool) :
    (radial_interp E a a_lats a_lons clat clon (r0 :: rest) ds retc
        = Except.error PyErr.assertionError)
      ↔ (¬(2 ≤ E.ndim a ∧ E.ndim a ≤ 3) ∨ r0 < 0 ∨
         (¬(clat.length = 1 ∧ clon.length = 1) ∧
          (E.ndim a ≠ 2 ∨ retc = true))) := by
  by_cases hdim : 2 ≤ E.ndim a ∧ E.ndim a ≤ 3
  · by_cases hr : 0 ≤ r0
    · by_cases hc : clat.length = 1 ∧ clon.length = 1
      · simp [radial_interp, hdim, hr, hc, hdim.1, hdim.2, hc.1, hc.2,
          not_lt.mpr hr]
      · simp only [radial_interp, if_pos hdim, if_pos hr, if_neg hc]
        rw [multiCenter_assert_iff]
        simp [hdim.1, hdim.2, hc, not_lt.mpr hr]
    · simp only [radial_interp, if_pos hdim, if_neg hr]
      simp [not_le.mp hr]
  · simp only [radial_interp, if_neg hdim]
    simp [hdim]

/-- C3: in the single-center branch the target sample coordinates are
generated by great-circle destination calculations — for each `km` in
`radius_steps` (outer loop, in order) and each `deg` in `degree_steps`
(inner loop, in order) the sample point is `E.dest` (the geodesic
destination) at distance `km` and bearing `deg` from `(center_lat,
center_lon)` — and when `radius_steps[0] > 0` the center point itself is
additionally prepended to both coordinate lists. -/
theorem C3_single_center_destinations (E : Env α) (a : α)
    (a_lats a_lons : List ℚ) (clat clon r0 : ℚ) (rest ds : List ℚ)
    (hdim : 2 ≤ E.ndim a ∧ E.ndim a ≤ 3) (hr : 0 ≤ r0) :
    radial_interp E a a_lats a_lons [clat] [clon] (r0 :: rest) ds true =
      Except.ok (RIRet.withCoords
        (interpn E (a_lons, a_lats) a
          (sampleLons E clat clon (r0 :: rest) ds,
           sampleLats E clat clon (r0 :: rest) ds))
        (if 0 < r0 then clat :: spiderLats E clat clon (r0 :: rest) ds
         else spiderLats E clat clon (r0 :: rest) ds)
        (if 0 < r0 then clon :: spiderLons E clat clon (r0 :: rest) ds
         else spiderLons E clat clon (r0 :: rest) ds)) := by
  rw [single_center_eval E a a_lats a_lons clat clon r0 rest ds true hdim hr]
  rcases lt_or_eq_of_le hr with h0 | h0
  · simp [sampleLats, sampleLons, h0, h0.ne']
  · simp [sampleLats, sampleLons, ← h0]

/-- C3 witness: a concrete single-center call with starting radius 3. -/
theorem C3_witness :
    radial_interp natEnv 2 [0, 1] [0, 1] [1] [2] [3] [0, 90] true =
      Except.ok (RIRet.withCoords
        (interpn natEnv ([0, 1], [0, 1]) 2
          (sampleLons natEnv 1 2 [3] [0, 90],
           sampleLats natEnv 1 2 [3] [0, 90]))
        (if (0 : ℚ) < 3 then 1 :: spiderLats natEnv 1 2 [3] [0, 90]
         else spiderLats natEnv 1 2 [3] [0, 90])
        (if (0 : ℚ) < 3 then 2 :: spiderLons natEnv 1 2 [3] [0, 90]
         else spiderLons natEnv 1 2 [3] [0, 90])) :=
  C3_single_center_destinations natEnv 2 [0, 1] [0, 1] 1 2 3 [] [0, 90]
    (by decide) (by decide)

/-- C4: in the single-center branch the returned interpolated values are
exactly the `interpn` grid lookup of the input field at the generated
sample coordinates, with the grid given as `(a_lons, a_lats)` — the input
array's first axis is indexed by `a_lons`, its second by `a_lats` — and
the query points given as `(interp_lon, interp_lat)`. -/
theorem C4_single_center_interpn_lookup (E : Env α) (a : α)
    (a_lats a_lons : List ℚ) (clat clon r0 : ℚ) (rest ds : List ℚ)
    (hdim : 2 ≤ E.ndim a ∧ E.ndim a ≤ 3) (hr : 0 ≤ r0) :
    radial_interp E a a_lats a_lons [clat] [clon] (r0 :: rest) ds false =
      Except.ok (RIRet.vals (interpn E (a_lons, a_lats) a
        (sampleLons E clat clon (r0 :: rest) ds,
         sampleLats E clat clon (r0 :: rest) ds))) := by
  rw [single_center_eval E a a_lats a_lons clat clon r0 rest ds false hdim hr]
  simp

/-- C4 witness: a concrete single-center call without coordinates. -/
theorem C4_witness :
    radial_interp natEnv 2 [0, 1] [0, 1] [1] [2] [0, 3] [0, 90] false =
      Except.ok (RIRet.vals (interpn natEnv ([0, 1], [0, 1]) 2
        (sampleLons natEnv 1 2 [0, 3] [0, 90],
         sampleLats natEnv 1 2 [0, 3] [0, 90]))) :=
  C4_single_center_interpn_lookup natEnv 2 [0, 1] [0, 1] 1 2 0 [3] [0, 90]
    (by decide) (by decide)

/-- C5: in the single-center branch the sample coordinates are returned
exactly when requested — `return_coordinates = true` yields the
`(interp_vals, interp_lat, interp_lon)` triple and `return_coordinates =
false` yields the values alone — while in the multiple-center branch a
call with `return_coordinates = true` is rejected by assertion. -/
theorem C5_coordinates_on_request (E : Env α) (a : α)
    (a_lats a_lons clat clon : List ℚ) (r0 : ℚ) (rest ds : List ℚ)
    (hdim : 2 ≤ E.ndim a ∧ E.ndim a ≤ 3) (hr : 0 ≤ r0) :
    (clat.length = 1 ∧ clon.length = 1 →
      isTriple (radial_interp E a a_lats a_lons clat clon (r0 :: rest)
          ds true) = true ∧
      isValsOnly (radial_interp E a a_lats a_lons clat clon (r0 :: rest)
          ds false) = true) ∧
    (¬(clat.length = 1 ∧ clon.length = 1) →
      radial_interp E a a_lats a_lons clat clon (r0 :: rest) ds true
        = Except.error PyErr.assertionError) := by
  constructor
  · intro hc
    constructor
    · simp [radial_interp, hdim, hr, hc.1, hc.2, singleCenter, isTriple]
    · simp [radial_interp, hdim, hr, hc.1, hc.2, singleCenter, isValsOnly]
  · intro hc
    simp only [radial_interp, if_pos hdim, if_pos hr, if_neg hc]
    rw [multiCenter_assert_iff]
    simp

/-- C5 witness: concrete single-center calls, both flag values. -/
theorem C5_witness :
    isTriple (radial_interp natEnv 2 [0, 1] [0, 1] [1] [2] [0] [0] true)
        = true ∧
    isValsOnly (radial_interp natEnv 2 [0, 1] [0, 1] [1] [2] [0] [0] false)
        = true :=
  (C5_coordinates_on_request natEnv 2 [0, 1] [0, 1] [1] [2] 0 [] [0]
    (by decide) (by decide)).1 ⟨rfl, rfl⟩

/-- C6: after the two top-level asserts pass, exactly one of the two
branches runs, selected by the sizes of the center arguments: the
single-center branch if and only if `np.size(center_lat) == 1` and
`np.size(center_lon) == 1`, the multiple-center branch otherwise.  Both
`singleCenter` and `multiCenter` share the two-stage structure visible in
their definitions: `destLoop` (destination points) then `interpn`. -/
theorem C6_branch_selection (E : Env α) (a : α)
    (a_lats a_lons clat clon : List ℚ) (r0 : ℚ) (rest ds : List ℚ)
    (retc : Bool) (hdim : 2 ≤ E.ndim a ∧ E.ndim a ≤ 3) (hr : 0 ≤ r0) :
    (clat.length = 1 ∧ clon.length = 1 →
      radial_interp E a a_lats a_lons clat clon (r0 :: rest) ds retc =
        Except.ok (singleCenter E a a_lats a_lons (clat.headD 0)
          (clon.headD 0) (r0 :: rest) ds retc)) ∧
    (¬(clat.length = 1 ∧ clon.length = 1) →
      radial_interp E a a_lats a_lons clat clon (r0 :: rest) ds retc =
        multiCenter E a a_lats a_lons clat clon (r0 :: rest) ds retc) := by
  constructor
  · intro hc
    simp [radial_interp, hdim, hr, hc.1, hc.2]
  · intro hc
    simp only [radial_interp, if_pos hdim, if_pos hr, if_neg hc]

/-- C6 witness: a concrete multiple-center call reduces to the
multiple-center branch. -/
theorem C6_witness :
    radial_interp natEnv 2 [0, 1] [0, 1] [0, 1] [0] [0] [0] false =
      multiCenter natEnv 2 [0, 1] [0, 1] [0, 1] [0] [0] [0] false :=
  (C6_branch_selection natEnv 2 [0, 1] [0, 1] [0, 1] [0] 0 [] [0] false
    (by decide) (by decide)).2 (by decide)

/-! ### Length and prefix lemmas for the sample lists -/

theorem interpn_length (E : Env α) (g : List ℚ × List ℚ) (a : α)
    (lons lats : List ℚ) :
    (interpn E g a (lons, lats)).length = min lons.length lats.length := by
  simp [interpn]

theorem sampleLats_length (E : Env α) (clat clon r0 : ℚ) (rest ds : List ℚ) :
    (sampleLats E clat clon (r0 :: rest) ds).length =
      if r0 = 0 then (r0 :: rest).length * ds.length
      else (r0 :: rest).length * ds.length + 1 := by
  by_cases h0 : r0 = 0 <;> simp [sampleLats, h0, spiderLats_length]

theorem sampleLons_length (E : Env α) (clat clon r0 : ℚ) (rest ds : List ℚ) :
    (sampleLons E clat clon (r0 :: rest) ds).length =
      if r0 = 0 then (r0 :: rest).length * ds.length
      else (r0 :: rest).length * ds.length + 1 := by
  by_cases h0 : r0 = 0 <;> simp [sampleLons, h0, spiderLons_length]

theorem spiderLats_zero_head (E : Env α) (clat clon : ℚ) (rest ds : List ℚ)
    (hdest : ∀ la lo deg : ℚ, E.dest la lo 0 deg = (la, lo)) :
    spiderLats E clat clon ((0 : ℚ) :: rest) ds
      = List.replicate ds.length clat ++ spiderLats E clat clon rest ds := by
  have hmap : ds.map (fun deg => (E.dest clat clon 0 deg).1)
      = List.replicate ds.length clat := by
    induction ds with
    | nil => rfl
    | cons d ds ih => simp [List.replicate_succ, ih, hdest]
  simp [spiderLats, hmap]

theorem spiderLons_zero_head (E : Env α) (clat clon : ℚ) (rest ds : List ℚ)
    (hdest : ∀ la lo deg : ℚ, E.dest la lo 0 deg = (la, lo)) :
    spiderLons E clat clon ((0 : ℚ) :: rest) ds
      = List.replicate ds.length clon ++ spiderLons E clat clon rest ds := by
  have hmap : ds.map (fun deg => (E.dest clat clon 0 deg).2)
      = List.replicate ds.length clon := by
    induction ds with
    | nil => rfl
    | cons d ds ih => simp [List.replicate_succ, ih, hdest]
  simp [spiderLons, hmap]

theorem zip_replicate_pair {β γ : Type} (n : Nat) (x : β) (y : γ) :
    (List.replicate n x).zip (List.replicate n y) = List.replicate n (x, y) := by
  induction n with
  | zero => rfl
  | succ n ih => simp [List.replicate_succ, ih]

theorem take_append_replicate {β : Type} (n : Nat) (x : β) (L : List β) :
    (List.replicate n x ++ L).take n = List.replicate n x := by
  simp

/-- C7: frame property.  Every numpy array a caller shares with the call
(`a`, `a_lats`, `a_lons`, `radius_steps`, `degree_steps`) is threaded
through the embedding as the store `σ`; the source only reads them (its
writes go to the locals `interp_lat`, `interp_lon`, `array_out`), so a
normal return hands back the store unchanged. -/
theorem C7_inputs_unchanged (E : Env α) (σ : Store α)
    (clat clon : List ℚ) (retc : Bool) :
    (∃ e, radial_interpSt E σ clat clon retc = Except.error e) ∨
    (∃ r, radial_interpSt E σ clat clon retc = Except.ok (r, σ)) := by
  unfold radial_interpSt
  cases radial_interp E σ.a σ.a_lats σ.a_lons clat clon σ.radius_steps
      σ.degree_steps retc with
  | error e => exact Or.inl ⟨e, rfl⟩
  | ok r => exact Or.inr ⟨r, rfl⟩

/-- C8: determinism.  Two calls whose argument values are equal return
equal results; the embedding of the function body depends on nothing
outside its arguments (and the fixed library environment `E`). -/
theorem C8_deterministic (E : Env α) (a a2 : α)
    (al al2 ao ao2 cl cl2 co co2 rs rs2 ds ds2 : List ℚ)
    (retc retc2 : Bool) (ha : a = a2) (h1 : al = al2) (h2 : ao = ao2)
    (h3 : cl = cl2) (h4 : co = co2) (h5 : rs = rs2) (h6 : ds = ds2)
    (h7 : retc = retc2) :
    radial_interp E a al ao cl co rs ds retc
      = radial_interp E a2 al2 ao2 cl2 co2 rs2 ds2 retc2 := by
  subst ha h1 h2 h3 h4 h5 h6 h7
  rfl

/-- C8 witness: two concrete calls with equal arguments agree. -/
theorem C8_witness :
    radial_interp natEnv 2 [0, 1] [0, 1] [1] [0] [0] [0] false
      = radial_interp natEnv 2 [0, 1] [0, 1] [1] [0] [0] [0] false :=
  C8_deterministic natEnv 2 2 [0, 1] [0, 1] [0, 1] [0, 1] [1] [1] [0] [0]
    [0] [0] [0] [0] false false rfl rfl rfl rfl rfl rfl rfl rfl

/-- C9: in the single-center branch the call returns
`len(radius_steps) * len(degree_steps)` interpolated values (and as many
latitude and longitude samples) when `radius_steps[0] = 0`, and one more —
the prepended center point — when `radius_steps[0] > 0`. -/
theorem C9_sample_count (E : Env α) (a : α) (a_lats a_lons : List ℚ)
    (clat clon r0 : ℚ) (rest ds : List ℚ)
    (hdim : 2 ≤ E.ndim a ∧ E.ndim a ≤ 3) (hr : 0 ≤ r0) :
    radial_interp E a a_lats a_lons [clat] [clon] (r0 :: rest) ds true
      = Except.ok (RIRet.withCoords
          (interpn E (a_lons, a_lats) a
            (sampleLons E clat clon (r0 :: rest) ds,
             sampleLats E clat clon (r0 :: rest) ds))
          (sampleLats E clat clon (r0 :: rest) ds)
          (sampleLons E clat clon (r0 :: rest) ds)) ∧
    (interpn E (a_lons, a_lats) a
        (sampleLons E clat clon (r0 :: rest) ds,
         sampleLats E clat clon (r0 :: rest) ds)).length
      = (if 0 < r0 then (r0 :: rest).length * ds.length + 1
         else (r0 :: rest).length * ds.length) ∧
    (sampleLats E clat clon (r0 :: rest) ds).length
      = (if 0 < r0 then (r0 :: rest).length * ds.length + 1
         else (r0 :: rest).length * ds.length) ∧
    (sampleLons E clat clon (r0 :: rest) ds).length
      = (if 0 < r0 then (r0 :: rest).length * ds.length + 1
         else (r0 :: rest).length * ds.length) := by
  have hev := single_center_eval E a a_lats a_lons clat clon r0 rest ds
    true hdim hr
  refine ⟨by simpa using hev, ?_, ?_, ?_⟩
  · rcases lt_or_eq_of_le hr with h0 | h0
    · simp [interpn_length, sampleLats_length, sampleLons_length, h0, h0.ne']
    · rw [← h0]
      simp [interpn_length, sampleLats_length, sampleLons_length]
  · rcases lt_or_eq_of_le hr with h0 | h0
    · simp [sampleLats_length, h0, h0.ne']
    · rw [← h0]
      simp [sampleLats_length]
  · rcases lt_or_eq_of_le hr with h0 | h0
    · simp [sampleLons_length, h0, h0.ne']
    · rw [← h0]
      simp [sampleLons_length]

/-- C9 witness: with `radius_steps = [0, 3]` and two bearings the call
returns 4 values and 4 coordinate pairs. -/
theorem C9_witness :
    radial_interp natEnv 2 [0, 1] [0, 1] [1] [2] [0, 3] [0, 90] true
      = Except.ok (RIRet.withCoords
          (interpn natEnv ([0, 1], [0, 1]) 2
            (sampleLons natEnv 1 2 [0, 3] [0, 90],
             sampleLats natEnv 1 2 [0, 3] [0, 90]))
          (sampleLats natEnv 1 2 [0, 3] [0, 90])
          (sampleLons natEnv 1 2 [0, 3] [0, 90])) ∧
    (interpn natEnv ([0, 1], [0, 1]) 2
        (sampleLons natEnv 1 2 [0, 3] [0, 90],
         sampleLats natEnv 1 2 [0, 3] [0, 90])).length
      = (if (0 : ℚ) < 0 then ([(0 : ℚ), 3]).length * ([(0 : ℚ), 90]).length + 1
         else ([(0 : ℚ), 3]).length * ([(0 : ℚ), 90]).length) ∧
    (sampleLats natEnv 1 2 [0, 3] [0, 90]).length
      = (if (0 : ℚ) < 0 then ([(0 : ℚ), 3]).length * ([(0 : ℚ), 90]).length + 1
         else ([(0 : ℚ), 3]).length * ([(0 : ℚ), 90]).length) ∧
    (sampleLons natEnv 1 2 [0, 3] [0, 90]).length
      = (if (0 : ℚ) < 0 then ([(0 : ℚ), 3]).length * ([(0 : ℚ), 90]).length + 1
         else ([(0 : ℚ), 3]).length * ([(0 : ℚ), 90]).length) :=
  C9_sample_count natEnv 2 [0, 1] [0, 1] 1 2 0 [3] [0, 90]
    (by decide) (by decide)

/-- C10: in the single-center branch with `radius_steps[0] = 0`, the first
`len(degree_steps)` sample points all coincide with the center — a
geodesic destination at distance 0 km is the starting point for every
bearing (the hypothesis `hdest`, a property of the geodesic
`destination`) — so the first `len(degree_steps)` interpolated values are
all duplicates of the field value at the center. -/
theorem C10_zero_radius_center_duplicates (E : Env α) (a : α)
    (a_lats a_lons : List ℚ) (clat clon : ℚ) (rest ds : List ℚ)
    (hdim : 2 ≤ E.ndim a ∧ E.ndim a ≤ 3)
    (hdest : ∀ la lo deg : ℚ, E.dest la lo 0 deg = (la, lo)) :
    radial_interp E a a_lats a_lons [clat] [clon] ((0 : ℚ) :: rest) ds true
      = Except.ok (RIRet.withCoords
          (interpn E (a_lons, a_lats) a
            (sampleLons E clat clon ((0 : ℚ) :: rest) ds,
             sampleLats E clat clon ((0 : ℚ) :: rest) ds))
          (sampleLats E clat clon ((0 : ℚ) :: rest) ds)
          (sampleLons E clat clon ((0 : ℚ) :: rest) ds)) ∧
    (sampleLats E clat clon ((0 : ℚ) :: rest) ds).take ds.length
      = List.replicate ds.length clat ∧
    (sampleLons E clat clon ((0 : ℚ) :: rest) ds).take ds.length
      = List.replicate ds.length clon ∧
    (interpn E (a_lons, a_lats) a
        (sampleLons E clat clon ((0 : ℚ) :: rest) ds,
         sampleLats E clat clon ((0 : ℚ) :: rest) ds)).take ds.length
      = List.replicate ds.length
          (E.interp1 (a_lons, a_lats) a (clon, clat)) := by
  have hlat : sampleLats E clat clon ((0 : ℚ) :: rest) ds
      = List.replicate ds.length clat ++ spiderLats E clat clon rest ds := by
    rw [show sampleLats E clat clon ((0 : ℚ) :: rest) ds
        = spiderLats E clat clon ((0 : ℚ) :: rest) ds by simp [sampleLats]]
    exact spiderLats_zero_head E clat clon rest ds hdest
  have hlon : sampleLons E clat clon ((0 : ℚ) :: rest) ds
      = List.replicate ds.length clon ++ spiderLons E clat clon rest ds := by
    rw [show sampleLons E clat clon ((0 : ℚ) :: rest) ds
        = spiderLons E clat clon ((0 : ℚ) :: rest) ds by simp [sampleLons]]
    exact spiderLons_zero_head E clat clon rest ds hdest
  have hev := single_center_eval E a a_lats a_lons clat clon 0 rest ds
    true hdim (le_refl 0)
  refine ⟨by simpa using hev, ?_, ?_, ?_⟩
  · rw [hlat]
    exact take_append_replicate ds.length clat _
  · rw [hlon]
    exact take_append_replicate ds.length clon _
  · rw [hlat, hlon]
    simp only [interpn]
    rw [List.zip_append (by simp)]
    rw [zip_replicate_pair, List.map_append, List.map_replicate]
    exact take_append_replicate ds.length _ _

/-- C10 witness: with starting radius 0 and two bearings, both sample
points and both interpolated values duplicate the center. -/
theorem C10_witness :
    radial_interp natEnv 2 [0, 1] [0, 1] [1] [2] [(0 : ℚ)] [0, 90] true
      = Except.ok (RIRet.withCoords
          (interpn natEnv ([0, 1], [0, 1]) 2
            (sampleLons natEnv 1 2 [(0 : ℚ)] [0, 90],
             sampleLats natEnv 1 2 [(0 : ℚ)] [0, 90]))
          (sampleLats natEnv 1 2 [(0 : ℚ)] [0, 90])
          (sampleLons natEnv 1 2 [(0 : ℚ)] [0, 90])) ∧
    (sampleLats natEnv 1 2 [(0 : ℚ)] [0, 90]).take
        ([(0 : ℚ), 90]).length
      = List.replicate ([(0 : ℚ), 90]).length 1 ∧
    (sampleLons natEnv 1 2 [(0 : ℚ)] [0, 90]).take
        ([(0 : ℚ), 90]).length
      = List.replicate ([(0 : ℚ), 90]).length 2 ∧
    (interpn natEnv ([0, 1], [0, 1]) 2
        (sampleLons natEnv 1 2 [(0 : ℚ)] [0, 90],
         sampleLats natEnv 1 2 [(0 : ℚ)] [0, 90])).take
        ([(0 : ℚ), 90]).length
      = List.replicate ([(0 : ℚ), 90]).length
          (natEnv.interp1 ([0, 1], [0, 1]) 2 (2, 1)) :=
  C10_zero_radius_center_duplicates natEnv 2 [0, 1] [0, 1] 1 2 [] [0, 90]
    (by decide) (fun la lo deg => by simp [natEnv])
